import Mathlib

/-!
Verification development for the Local Process Supervision & Diagnostics Core
of `src/src-tauri/src/lib.rs` (DaeBotJS desktop shell).

The Rust source is shallowly embedded:

* The process supervisor (`start_bot`, `stop_bot`, `get_bot_status`) becomes
  explicit state passing over `BotSt` (the contents of the `BotState` struct
  guarded by the mutex).  Interactions with the OS (executable resolution and
  spawning, the non-blocking `try_wait` liveness probe) are injected as
  explicit outcome parameters (`SpawnOutcome`, `WaitOutcome`), since the code
  only branches on their results.
* The tail reader (`get_logs`, `parse_log_entry`) becomes a function over the
  log file's character content.  `serde_json::from_str::<Value>` is an
  external library call and is passed in as a parse oracle
  `List Char → Option Json`; everything after that call (field extraction,
  metadata collection, line handling, the small-file/large-file split, the
  last-N truncation) is translated from the source.
* The history store (`get_last_sync_time`'s migration block,
  `get_sync_history`, `add_sync_history`) becomes functions over a small
  relational state `Db`: the `sync_history` table and the renamed-aside
  `sync_history_old` table, with rows as association lists of SQL values.
  Each `conn.execute`/`query_row` statement of the source is modelled by one
  operation.  `chrono`'s RFC 3339 parsing/formatting are external library
  calls and are passed in as oracles.
-/

namespace DaeBot

/-! ## Process supervisor (src/src-tauri/src/lib.rs, `start_bot` / `stop_bot` / `get_bot_status`)

`BotSt` is the contents of the `BotState` struct: `process : Option Child`
(the OS handle, modelled by its pid) and the `status` string label. -/

structure BotSt where
  process : Option Nat
  status : String
deriving DecidableEq

/-- Outcome of executable resolution plus `Command::spawn`: either a child
handle or an error message (`bot.exe not found …` / `Failed to start …`). -/
inductive SpawnOutcome where
  | ok (child : Nat)
  | fail (msg : String)
deriving DecidableEq

/-- Outcome of the non-blocking `process.try_wait()` probe:
`Ok(Some(_))`, `Ok(None)` or `Err(_)`. -/
inductive WaitOutcome where
  | exited
  | stillRunning
  | waitError
deriving DecidableEq

/-- Embedding of `start_bot` (lib.rs lines 235-405).  The guard is
`bot.process.is_some()`; on success the handle is stored and the status label
set to `"running"`.  Resolution/spawn failures leave the state unchanged. -/
def start_bot (spawn : SpawnOutcome) (s : BotSt) : Except String String × BotSt :=
  if s.process.isSome then
    (Except.error "Bot is already running", s)
  else
    match spawn with
    | SpawnOutcome.ok child =>
        (Except.ok "Bot started successfully", { process := some child, status := "running" })
    | SpawnOutcome.fail msg => (Except.error msg, s)

/-- Embedding of the foreground part of `stop_bot` (lib.rs lines 408-474):
take the handle out of the slot, set the label to `"stopping"`, return
immediately.  The background kill task is `stop_bot_background`. -/
def stop_bot (s : BotSt) : Except String String × BotSt :=
  match s.process with
  | some _ => (Except.ok "Bot is stopping", { process := none, status := "stopping" })
  | none => (Except.error "Bot is not running", s)

/-- Embedding of the tail of `stop_bot`'s spawned background task: after the
kill attempt (successful or not) it sets the status label to `"stopped"`. -/
def stop_bot_background (s : BotSt) : BotSt :=
  { s with status := "stopped" }

/-- Embedding of `get_bot_status` (lib.rs lines 477-503): if a handle is held,
probe it with `try_wait`; clear the handle and report `"stopped"` on exit or
probe error, report `"running"` otherwise; report `"stopped"` when no handle
is held.  Returns the label together with the updated state. -/
def get_bot_status (w : WaitOutcome) (s : BotSt) : String × BotSt :=
  match s.process with
  | some pid =>
      match w with
      | WaitOutcome.exited => ("stopped", { process := none, status := "stopped" })
      | WaitOutcome.stillRunning => ("running", { process := some pid, status := "running" })
      | WaitOutcome.waitError => ("stopped", { process := none, status := "stopped" })
  | none => ("stopped", { s with status := "stopped" })

/-! ## Tail reader (src/src-tauri/src/lib.rs, `get_logs` / `parse_log_entry`)

A `serde_json::Value` is modelled by `Json`; `serde_json`'s map iterates in
key order, which no claim depends on, so object fields are kept as the
association list handed over by the parse oracle. -/

inductive Json where
  | null
  | bool (b : Bool)
  | num (n : Int)
  | str (s : String)
  | arr (elems : List Json)
  | obj (fields : List (String × Json))

/-- Indexing `json["key"]` on a `serde_json::Value`: the field's value when
the value is an object containing the key, `Null` otherwise. -/
def Json.index (j : Json) (key : String) : Json :=
  match j with
  | Json.obj fields =>
      match fields.find? (fun p => p.1 == key) with
      | some p => p.2
      | none => Json.null
  | _ => Json.null

/-- `Value::as_str`: `Some` exactly on JSON strings. -/
def Json.as_str : Json → Option String
  | Json.str s => some s
  | _ => none

structure LogEntry where
  timestamp : String
  level : String
  message : String
  metadata : Option Json

/-- Embedding of `parse_log_entry` (lib.rs lines 1424-1449): extract
`timestamp`/`level`/`message` with defaults `""`/`"INFO"`/`""`, and collect
all remaining object fields as metadata (`None` when there are none or the
value is not an object). -/
def parse_log_entry (json : Json) : LogEntry :=
  let timestamp := ((json.index "timestamp").as_str).getD ""
  let level := ((json.index "level").as_str).getD "INFO"
  let message := ((json.index "message").as_str).getD ""
  let metadata :=
    match json with
    | Json.obj fields =>
        let md := fields.filter
          (fun p => !(p.1 == "timestamp") && !(p.1 == "level") && !(p.1 == "message"))
        if md.isEmpty then none else some (Json.obj md)
    | _ => none
  { timestamp := timestamp, level := level, message := message, metadata := metadata }

/-- Split a character buffer at every `'\n'`.  This is the underlying split of
both `BufRead::lines` (small-file path) and `str::lines` (large-file path):
the resulting pieces are the `'\n'`-terminated segments plus one final
unterminated segment (possibly empty). -/
def splitNl : List Char → List (List Char)
  | [] => [[]]
  | c :: rest =>
      let ps := splitNl rest
      if c = '\n' then [] :: ps
      else (c :: ps.headI) :: ps.tail

/-- Strip one trailing `'\r'`, as Rust's line iterators do on
`'\n'`-terminated segments. -/
def stripCr (l : List Char) : List Char :=
  if l.getLast? = some '\r' then l.dropLast else l

/-- Rust `lines()` over a buffer: every `'\n'`-terminated segment with its
optional trailing `'\r'` stripped, plus the final unterminated segment as-is
when it is nonempty. -/
def rustLines (cs : List Char) : List (List Char) :=
  let ps := splitNl cs
  ps.dropLast.map stripCr ++ (if ps.getLastD [] = [] then [] else [ps.getLastD []])

/-- Parse each line independently with the `serde_json` oracle; lines the
oracle rejects are skipped (`if let Ok(json) = serde_json::from_str(...)`),
accepted lines become `parse_log_entry` records. -/
def linesParse (parse : List Char → Option Json) (ls : List (List Char)) : List LogEntry :=
  ls.filterMap (fun l => (parse l).map parse_log_entry)

def parseBuffer (parse : List Char → Option Json) (buf : List Char) : List LogEntry :=
  linesParse parse (rustLines buf)

/-- The last-N truncation of `get_logs`:
`let start = if logs.len() > limit then logs.len() - limit else 0` followed by
`logs[start..]`. -/
def lastN (limit : Nat) (logs : List α) : List α :=
  let start := if logs.length > limit then logs.length - limit else 0
  logs.drop start

/-- The portion of the file `get_logs` actually reads (lib.rs lines
1376-1408): the whole file below the 1 MB threshold, otherwise the trailing
window of `min(500KB, file_size)` bytes starting at
`file_size.saturating_sub(read_size)`. -/
def readWindow (content : List Char) : List Char :=
  if content.length < 1000000 then content
  else content.drop (content.length - min 500000 content.length)

/-- Embedding of the record-producing core of `get_logs` (lib.rs lines
1340-1421) on a resolved, existing log file with the given content: read the
whole file or the trailing window, split into lines, parse each line, return
the last `limit` parsed records. -/
def get_logs_from_content (parse : List Char → Option Json) (content : List Char)
    (limit : Nat) : List LogEntry :=
  lastN limit (parseBuffer parse (readWindow content))

/-- Modelled from the spec's words for the refinement comparison in the
large-file claim: the result of "parsing the whole file" and returning the
last `limit` records, with no windowing. -/
def get_logs_whole (parse : List Char → Option Json) (content : List Char)
    (limit : Nat) : List LogEntry :=
  lastN limit (parseBuffer parse content)

/-! ## History store (src/src-tauri/src/lib.rs, `get_last_sync_time` migration
block, `get_sync_history`, `add_sync_history`)

The embedded database state `Db` holds the `sync_history` table and the
renamed-aside `sync_history_old` table.  A table is its column-name list plus
its rows; a row is an association list from column name to SQL value.  Each
SQL statement the source executes is modelled by one operation below. -/

inductive SqlVal where
  | null
  | int (i : Int)
  | text (s : String)
deriving DecidableEq

/-- One table row: column name to value. -/
abbrev Row := List (String × SqlVal)

structure Table where
  cols : List String
  rows : List Row
deriving DecidableEq

structure Db where
  main : Option Table
  aside : Option Table
deriving DecidableEq

/-- Columns of the canonical `sync_history` schema, in the order of the
`CREATE TABLE` statements (lib.rs lines 1541-1553, 1754-1766, 1824-1836). -/
def canonicalCols : List String :=
  ["id", "timestamp", "sync_type", "runs_added", "characters_processed",
   "duration_ms", "success", "error_message"]

/-- Columns of the legacy schema the migration reads from
(`SELECT id, timestamp, success, COALESCE(runs_added, 0),
COALESCE(characters_processed, 0), duration, error FROM sync_history_old`). -/
def oldSchemaCols : List String :=
  ["id", "timestamp", "success", "runs_added", "characters_processed",
   "duration", "error"]

/-- Value of a column in a row; SQL `NULL` when the row has no such binding. -/
def rowVal (r : Row) (c : String) : SqlVal :=
  match r.find? (fun p => p.1 == c) with
  | some p => p.2
  | none => SqlVal.null

/-- SQL `COALESCE(v, d)` for the two-argument uses in the migration. -/
def sqlCoalesce (v d : SqlVal) : SqlVal :=
  match v with
  | SqlVal.null => d
  | v => v

/-- `ALTER TABLE … ADD COLUMN c … DEFAULT dflt`: fails when the column already
exists, otherwise appends the column and gives every existing row the
default. -/
def alterAddColumn (t : Table) (c : String) (dflt : SqlVal) : Except String Table :=
  if c ∈ t.cols then Except.error "duplicate column name"
  else Except.ok (Table.mk (t.cols ++ [c]) (t.rows.map (fun r => r ++ [(c, dflt)])))

/-- The `let _ = conn.execute(…)` pattern: run a statement and ignore its
error, keeping the prior table on failure. -/
def execIgnore (t : Table) (res : Except String Table) : Table :=
  match res with
  | Except.ok t2 => t2
  | Except.error _ => t

/-- Columns the migration's `INSERT … SELECT` reads from the aside table. -/
def copySelectCols : List String :=
  ["id", "timestamp", "success", "runs_added", "characters_processed",
   "duration", "error"]

/-- One row of the migration copy: old column names mapped to canonical ones
(`duration` to `duration_ms`, `error` to `error_message`), `COALESCE(…, 0)`
on the two counters, and `sync_type` filled by the new column's `DEFAULT
'auto'` since the insert column list omits it. -/
def migratedRow (r : Row) : Row :=
  [("id", rowVal r "id"),
   ("timestamp", rowVal r "timestamp"),
   ("sync_type", SqlVal.text "auto"),
   ("runs_added", sqlCoalesce (rowVal r "runs_added") (SqlVal.int 0)),
   ("characters_processed", sqlCoalesce (rowVal r "characters_processed") (SqlVal.int 0)),
   ("duration_ms", rowVal r "duration"),
   ("success", rowVal r "success"),
   ("error_message", rowVal r "error")]

/-- The `INSERT INTO sync_history … SELECT … FROM sync_history_old` copy:
fails (like SQLite, with the whole statement rolled back) when a selected
column is missing from the aside table's schema. -/
def copyOldRows (old : Table) : Except String (List Row) :=
  if copySelectCols.all (fun c => c ∈ old.cols) then
    Except.ok (old.rows.map migratedRow)
  else Except.error "Failed to migrate data: no such column"

/-- The two `let _ = conn.execute("ALTER TABLE sync_history ADD COLUMN …")`
statements (lib.rs lines 1524-1525), errors ignored. -/
def migrateAlters (t : Table) : Table :=
  execIgnore (execIgnore t (alterAddColumn t "sync_type" (SqlVal.text "auto")))
    (alterAddColumn (execIgnore t (alterAddColumn t "sync_type" (SqlVal.text "auto")))
      "duration_ms" SqlVal.null)

/-- The table-recreation part of the migration (lib.rs lines 1529-1568), run
on the table state `t2` left by the alters: if `error_message` is already
present, done; otherwise rename the table aside (fails if an aside table
already exists), create the canonical table, copy every row across, and drop
the aside table only after the copy succeeded.  A copy failure surfaces the
error and leaves the aside table in place. -/
def migrateRecreate (db : Db) (t2 : Table) : Option String × Db :=
  if "error_message" ∈ t2.cols then (none, { db with main := some t2 })
  else
    match db.aside with
    | some _ => (some "Failed to rename old table", { db with main := some t2 })
    | none =>
        match copyOldRows t2 with
        | Except.error e =>
            (some e, { main := some (Table.mk canonicalCols []), aside := some t2 })
        | Except.ok newRows =>
            (none, { main := some (Table.mk canonicalCols newRows), aside := none })

/-- Embedding of the schema-migration block of `get_last_sync_time` (lib.rs
lines 1506-1570).  Returns the error surfaced to the caller (if any) together
with the database state the statements left behind: no `sync_history` table,
or one that already has `sync_type`, is a no-op; otherwise the alters run and
the table is recreated if `error_message` is still missing. -/
def migrate_sync_history (db : Db) : Option String × Db :=
  match db.main with
  | none => (none, db)
  | some t =>
      if "sync_type" ∈ t.cols then (none, db)
      else migrateRecreate db (migrateAlters t)

/-- `CREATE TABLE IF NOT EXISTS sync_history (…)` as run by `get_sync_history`
and `add_sync_history`: yields the existing table unchanged whatever its
schema, or a fresh canonical table. -/
def openMainTable (db : Db) : Table :=
  match db.main with
  | some t => t
  | none => Table.mk canonicalCols []

structure SyncHistoryEntry where
  timestamp : String
  success : Bool
  sync_type : String
  runs_added : Option Int
  characters_processed : Option Int
  duration : Option Int
  error : Option String
deriving DecidableEq

/-- Columns read by `get_sync_history`'s `SELECT`, in source order. -/
def selectCols : List String :=
  ["timestamp", "success", "sync_type", "runs_added", "characters_processed",
   "duration_ms", "error_message"]

/-- Columns written by `add_sync_history`'s `INSERT`. -/
def insertCols : List String :=
  ["timestamp", "sync_type", "runs_added", "characters_processed",
   "duration_ms", "success", "error_message"]

/-- Timestamp key used by `ORDER BY timestamp DESC`; stored timestamps are
integers in every flow of this program. -/
def tsOf (r : Row) : Int :=
  match rowVal r "timestamp" with
  | SqlVal.int i => i
  | _ => 0

def insertDesc (r : Row) : List Row → List Row
  | [] => [r]
  | x :: xs => if tsOf x < tsOf r then r :: x :: xs else x :: insertDesc r xs

/-- `ORDER BY timestamp DESC`. -/
def sortDesc : List Row → List Row
  | [] => []
  | r :: rs => insertDesc r (sortDesc rs)

/-- `rusqlite` typed column reads, as used by `get_sync_history`'s row
mapper; a type mismatch makes the whole read fail. -/
def getInt : SqlVal → Except String Int
  | SqlVal.int i => Except.ok i
  | _ => Except.error "Failed to read history entry: invalid column type"

def getText : SqlVal → Except String String
  | SqlVal.text s => Except.ok s
  | _ => Except.error "Failed to read history entry: invalid column type"

def getIntOpt : SqlVal → Except String (Option Int)
  | SqlVal.null => Except.ok none
  | SqlVal.int i => Except.ok (some i)
  | _ => Except.error "Failed to read history entry: invalid column type"

def getTextOpt : SqlVal → Except String (Option String)
  | SqlVal.null => Except.ok none
  | SqlVal.text s => Except.ok (some s)
  | _ => Except.error "Failed to read history entry: invalid column type"

/-- Row mapper of `get_sync_history` (lib.rs lines 1778-1792): convert the
stored epoch-millisecond timestamp back to an RFC 3339 string with the
`chrono` formatting oracle `fmt`, read `success` as `!= 0`, and the remaining
columns at their declared types. -/
def rowToEntry (fmt : Int → String) (r : Row) : Except String SyncHistoryEntry := do
  let ts ← getInt (rowVal r "timestamp")
  let succ ← getInt (rowVal r "success")
  let sy ← getText (rowVal r "sync_type")
  let ra ← getIntOpt (rowVal r "runs_added")
  let cp ← getIntOpt (rowVal r "characters_processed")
  let du ← getIntOpt (rowVal r "duration_ms")
  let er ← getTextOpt (rowVal r "error_message")
  Except.ok
    { timestamp := fmt ts, success := succ != 0, sync_type := sy,
      runs_added := ra, characters_processed := cp, duration := du, error := er }

/-- The result-collection loop of `get_sync_history`: push each mapped row,
propagating the first row error. -/
def collectEntries (fmt : Int → String) : List Row → Except String (List SyncHistoryEntry)
  | [] => Except.ok []
  | r :: rs =>
      match rowToEntry fmt r with
      | Except.error e => Except.error e
      | Except.ok en =>
          match collectEntries fmt rs with
          | Except.error e => Except.error e
          | Except.ok ens => Except.ok (en :: ens)

/-- Embedding of `get_sync_history` (lib.rs lines 1733-1801) from connection
open onward: create-if-not-exists, then select the newest `limit` rows; the
select fails when the (unmigrated) schema lacks one of its columns. -/
def get_sync_history_q (fmt : Int → String) (db : Db) (limit : Nat) :
    Except String (List SyncHistoryEntry) :=
  let t := openMainTable db
  if selectCols.all (fun c => c ∈ t.cols) then
    collectEntries fmt ((sortDesc t.rows).take limit)
  else Except.error "Failed to query sync history: no such column"

def optInt : Option Int → SqlVal
  | none => SqlVal.null
  | some i => SqlVal.int i

def optText : Option String → SqlVal
  | none => SqlVal.null
  | some s => SqlVal.text s

/-- The row `add_sync_history` inserts (lib.rs lines 1838-1859): the RFC 3339
timestamp parsed to epoch milliseconds by the `chrono` oracle `parseTs`, with
the current time `now` substituted when parsing fails; absent counters
stored as 0 (`unwrap_or(0)`); `success` as 1/0. -/
def entryRow (parseTs : String → Option Int) (now : Int) (e : SyncHistoryEntry) : Row :=
  [("timestamp", SqlVal.int ((parseTs e.timestamp).getD now)),
   ("sync_type", SqlVal.text e.sync_type),
   ("runs_added", SqlVal.int (e.runs_added.getD 0)),
   ("characters_processed", SqlVal.int (e.characters_processed.getD 0)),
   ("duration_ms", optInt e.duration),
   ("success", SqlVal.int (if e.success then 1 else 0)),
   ("error_message", optText e.error)]

/-- Embedding of `add_sync_history` (lib.rs lines 1804-1863) from connection
open onward: create-if-not-exists, then a single `INSERT`; the insert fails
when the (unmigrated) schema lacks one of its columns. -/
def add_sync_history_q (parseTs : String → Option Int) (now : Int) (db : Db)
    (e : SyncHistoryEntry) : Except String Db :=
  let t := openMainTable db
  if insertCols.all (fun c => c ∈ t.cols) then
    Except.ok { db with main := some (Table.mk t.cols (t.rows ++ [entryRow parseTs now e])) }
  else Except.error "Failed to insert sync history: no such column"

/-- Append followed by a query, starting from a fresh database file (the
round-trip scenario of the spec). -/
def appendThenQuery (parseTs : String → Option Int) (fmt : Int → String) (now : Int)
    (e : SyncHistoryEntry) : Except String (List SyncHistoryEntry) :=
  (add_sync_history_q parseTs now (Db.mk none none) e).bind
    (fun db2 => get_sync_history_q fmt db2 1)

/-! ## Concrete instances used by witnesses and counterexamples -/

/-- The JSON text `["a"]` as a character line: valid JSON, but not the
expected structured record form. -/
def lineA : List Char := ['[', '"', 'a', '"', ']']

def lineB : List Char := ['[', '"', 'b', '"', ']']

def jsonA : Json := Json.arr [Json.str "a"]

def jsonB : Json := Json.arr [Json.str "b"]

/-- A concrete `serde_json::from_str::<Value>` oracle covering the two JSON
lines used in concrete log files; every other line (in particular every
filler line and every window fragment appearing below) is not valid JSON and
is rejected. -/
def serdeOracle : List Char → Option Json :=
  fun l => if l = lineA then some jsonA else if l = lineB then some jsonB else none

/-- A log file of 1000001 bytes: two valid JSON records followed by one huge
malformed line, so that the whole trailing 500KB window lies inside the
malformed line. -/
def contentRecordsThenFiller : List Char :=
  lineA ++ '\n' :: (lineB ++ '\n' :: List.replicate 999989 'x')

/-- A log file of 1000001 bytes with exactly one valid record, at the front. -/
def contentOneRecord : List Char :=
  lineA ++ '\n' :: List.replicate 999995 'x'

/-- A log file of exactly 1000000 bytes whose trailing window starts one byte
into a malformed line and otherwise contains only a second malformed line. -/
def contentWindowed : List Char :=
  List.replicate 500001 'x' ++ '\n' :: List.replicate 499998 'y'

/-- A concrete `chrono` RFC 3339 parse oracle
(`DateTime::parse_from_rfc3339(…).timestamp_millis()`), covering the spec
scenario instant in both its `Z` and `+00:00` spellings. -/
def parseTs0 : String → Option Int :=
  fun s =>
    if s = "2024-01-01T00:00:00Z" then some 1704067200000
    else if s = "2024-01-01T00:00:00+00:00" then some 1704067200000
    else none

/-- A concrete `chrono` formatting oracle
(`DateTime::from_timestamp_millis(…).to_rfc3339()`) for the same instant. -/
def fmt0 : Int → String :=
  fun ms =>
    if ms = 1704067200000 then "2024-01-01T00:00:00+00:00"
    else "1970-01-01T00:00:00+00:00"

/-- The spec scenario entry: `timestamp "2024-01-01T00:00:00Z"`,
`sync_type "manual"`, `success true`, all optional fields absent. -/
def entryScenario : SyncHistoryEntry :=
  { timestamp := "2024-01-01T00:00:00Z", success := true, sync_type := "manual",
    runs_added := none, characters_processed := none, duration := none, error := none }

/-- An entry whose timestamp string is not parseable RFC 3339. -/
def entryBadTs : SyncHistoryEntry :=
  { timestamp := "not-a-timestamp", success := true, sync_type := "manual",
    runs_added := some 1, characters_processed := some 2, duration := some 3, error := none }

def dbEmpty : Db := Db.mk none none

/-- One legacy-schema row (absent counter stored as NULL, as the migration's
`COALESCE` expects). -/
def oldRow1 : Row :=
  [("id", SqlVal.int 1), ("timestamp", SqlVal.int 1000), ("success", SqlVal.int 1),
   ("runs_added", SqlVal.null), ("characters_processed", SqlVal.int 3),
   ("duration", SqlVal.int 5), ("error", SqlVal.null)]

/-- A history file created under the legacy schema, holding one row. -/
def dbOld : Db := Db.mk (some (Table.mk oldSchemaCols [oldRow1])) none

/-- Well-typedness of a canonical-schema row: each column read by
`get_sync_history`'s row mapper carries a value of the declared type. -/
def wellTypedRow (r : Row) : Bool :=
  (getInt (rowVal r "timestamp")).isOk && (getInt (rowVal r "success")).isOk &&
  (getText (rowVal r "sync_type")).isOk && (getIntOpt (rowVal r "runs_added")).isOk &&
  (getIntOpt (rowVal r "characters_processed")).isOk &&
  (getIntOpt (rowVal r "duration_ms")).isOk && (getTextOpt (rowVal r "error_message")).isOk

/-- Well-typedness of a legacy-schema row. -/
def oldRowWellTyped (r : Row) : Bool :=
  (getInt (rowVal r "timestamp")).isOk && (getInt (rowVal r "success")).isOk &&
  (getIntOpt (rowVal r "runs_added")).isOk &&
  (getIntOpt (rowVal r "characters_processed")).isOk &&
  (getIntOpt (rowVal r "duration")).isOk && (getTextOpt (rowVal r "error")).isOk

/-! ## Theorems

First the supervisor claims, then the history store, then the tail reader. -/

/-- C1: the claim says `start()` fails with `AlreadyRunning` whenever the
state is `Running` or `Stopping`.  The code guards only on the handle
(`bot.process.is_some()`), and `stop_bot` takes the handle out before the
background kill finishes, so in the `Stopping` state (label `"stopping"`,
handle already taken) a new `start()` succeeds.  Amended claim, proved here:
`start()` fails with "Bot is already running" exactly when a process handle
is currently held — hence a second `start()` with no intervening `stop()`
fails — and otherwise (including during `Stopping`) a successful spawn stores
the handle and sets the state to `Running`. -/
theorem C1_start_guard_is_handle_presence (spawn : SpawnOutcome) (s : BotSt) :
    (s.process.isSome = true → start_bot spawn s = (Except.error "Bot is already running", s)) ∧
    (∀ c : Nat, s.process = none → spawn = SpawnOutcome.ok c →
      start_bot spawn s = (Except.ok "Bot started successfully", BotSt.mk (some c) "running")) ∧
    (∀ c c2 : Nat, s.process = none →
      (start_bot (SpawnOutcome.ok c2) ((start_bot (SpawnOutcome.ok c) s).2)).1
        = Except.error "Bot is already running") := by
  refine ⟨?_, ?_, ?_⟩
  · intro h
    simp [start_bot, h]
  · intro c h hs
    subst hs
    simp [start_bot, h]
  · intro c c2 h
    simp [start_bot, h]

/-- Witness for C1: from the stopped state a spawn succeeds, and an
immediately following second `start()` fails with "already running". -/
theorem C1_start_guard_witness :
    start_bot (SpawnOutcome.ok 1) (BotSt.mk none "stopped")
      = (Except.ok "Bot started successfully", BotSt.mk (some 1) "running") ∧
    (start_bot (SpawnOutcome.ok 2)
        ((start_bot (SpawnOutcome.ok 1) (BotSt.mk none "stopped")).2)).1
      = Except.error "Bot is already running" :=
  ⟨(C1_start_guard_is_handle_presence (SpawnOutcome.ok 1) (BotSt.mk none "stopped")).2.1 1 rfl rfl,
   (C1_start_guard_is_handle_presence (SpawnOutcome.ok 1) (BotSt.mk none "stopped")).2.2 1 2 rfl⟩

/-- Counterexample for C1 as stated: after `stop_bot` the supervisor is in the
`Stopping` state (label `"stopping"`), yet a `start()` there succeeds instead
of failing with `AlreadyRunning`. -/
theorem C1_counterexample_start_during_stopping :
    (stop_bot (BotSt.mk (some 1) "running")).2.status = "stopping" ∧
    (start_bot (SpawnOutcome.ok 2) ((stop_bot (BotSt.mk (some 1) "running")).2)).1
      = Except.ok "Bot started successfully" :=
  ⟨rfl, rfl⟩

/-- C8: `poll_status()` is idempotent — with the same liveness observation and
no intervening `start`/`stop`, a repeated call returns the same label and the
same state; the handle is never duplicated (the new state holds either the
old handle or none); a worker that exited on its own is reported `"stopped"`
with the handle cleared; a live handle is reported `"running"`; no handle is
reported `"stopped"`. -/
theorem C8_poll_status_idempotent (w : WaitOutcome) (s : BotSt) :
    get_bot_status w ((get_bot_status w s).2) = get_bot_status w s ∧
    ((get_bot_status w s).2.process = s.process ∨ (get_bot_status w s).2.process = none) ∧
    (s.process = none → get_bot_status w s = ("stopped", BotSt.mk none "stopped")) ∧
    (∀ p : Nat, s.process = some p → w = WaitOutcome.exited →
      get_bot_status w s = ("stopped", BotSt.mk none "stopped")) ∧
    (∀ p : Nat, s.process = some p → w = WaitOutcome.stillRunning →
      get_bot_status w s = ("running", BotSt.mk (some p) "running")) := by
  cases hp : s.process <;> cases w <;>
    simp [get_bot_status, hp]

/-- Witness for C8: a worker that exited on its own is reported `"stopped"`
with the handle cleared, and polling again returns the same answer. -/
theorem C8_poll_status_witness :
    get_bot_status WaitOutcome.exited (BotSt.mk (some 5) "running")
      = ("stopped", BotSt.mk none "stopped") ∧
    get_bot_status WaitOutcome.exited
        ((get_bot_status WaitOutcome.exited (BotSt.mk (some 5) "running")).2)
      = get_bot_status WaitOutcome.exited (BotSt.mk (some 5) "running") :=
  ⟨(C8_poll_status_idempotent WaitOutcome.exited (BotSt.mk (some 5) "running")).2.2.2.1 5 rfl rfl,
   (C8_poll_status_idempotent WaitOutcome.exited (BotSt.mk (some 5) "running")).1⟩


/-! ### History store lemmas -/

theorem rowVal_append (r ex : Row) (k : String)
    (hex : ex.find? (fun p => p.1 == k) = none) :
    rowVal (r ++ ex) k = rowVal r k := by
  unfold rowVal
  rw [List.find?_append, hex]
  cases r.find? (fun p => p.1 == k) <;> rfl

theorem migratedRow_alters (r : Row) :
    migratedRow ((r ++ [("sync_type", SqlVal.text "auto")]) ++ [("duration_ms", SqlVal.null)])
      = migratedRow r := by
  rw [List.append_assoc]
  simp only [List.singleton_append]
  unfold migratedRow
  rw [rowVal_append r [("sync_type", SqlVal.text "auto"), ("duration_ms", SqlVal.null)] "id" rfl,
      rowVal_append r [("sync_type", SqlVal.text "auto"), ("duration_ms", SqlVal.null)]
        "timestamp" rfl,
      rowVal_append r [("sync_type", SqlVal.text "auto"), ("duration_ms", SqlVal.null)]
        "runs_added" rfl,
      rowVal_append r [("sync_type", SqlVal.text "auto"), ("duration_ms", SqlVal.null)]
        "characters_processed" rfl,
      rowVal_append r [("sync_type", SqlVal.text "auto"), ("duration_ms", SqlVal.null)]
        "duration" rfl,
      rowVal_append r [("sync_type", SqlVal.text "auto"), ("duration_ms", SqlVal.null)]
        "success" rfl,
      rowVal_append r [("sync_type", SqlVal.text "auto"), ("duration_ms", SqlVal.null)]
        "error" rfl]

theorem migrate_none (db : Db) (hm : db.main = none) :
    migrate_sync_history db = (none, db) := by
  unfold migrate_sync_history
  split
  · rfl
  · next t heq => rw [hm] at heq; exact Option.noConfusion heq

theorem migrate_done (db : Db) (t : Table) (hm : db.main = some t)
    (hs : "sync_type" ∈ t.cols) :
    migrate_sync_history db = (none, db) := by
  unfold migrate_sync_history
  split
  · rfl
  · next t' heq =>
      rw [hm] at heq
      injection heq with heq
      subst heq
      rw [if_pos hs]

theorem migrate_eq_recreate (db : Db) (t : Table) (hm : db.main = some t)
    (hs : "sync_type" ∉ t.cols) :
    migrate_sync_history db = migrateRecreate db (migrateAlters t) := by
  unfold migrate_sync_history
  split
  · next heq => rw [hm] at heq; exact Option.noConfusion heq
  · next t' heq =>
      rw [hm] at heq
      injection heq with heq
      subst heq
      rw [if_neg hs]

theorem migrateAlters_old (t : Table) (hsync : "sync_type" ∉ t.cols)
    (hdur : "duration_ms" ∉ t.cols) :
    migrateAlters t
      = Table.mk ((t.cols ++ ["sync_type"]) ++ ["duration_ms"])
          ((t.rows.map (fun r => r ++ [("sync_type", SqlVal.text "auto")])).map
            (fun r => r ++ [("duration_ms", SqlVal.null)])) := by
  have h1 : alterAddColumn t "sync_type" (SqlVal.text "auto")
      = Except.ok (Table.mk (t.cols ++ ["sync_type"])
          (t.rows.map (fun r => r ++ [("sync_type", SqlVal.text "auto")]))) := by
    unfold alterAddColumn
    rw [if_neg hsync]
  have hd1 : "duration_ms" ∉ t.cols ++ ["sync_type"] := by
    intro hmem
    rcases List.mem_append.mp hmem with hmem | hmem
    · exact hdur hmem
    · simp at hmem
  have h2 : alterAddColumn (Table.mk (t.cols ++ ["sync_type"])
        (t.rows.map (fun r => r ++ [("sync_type", SqlVal.text "auto")]))) "duration_ms" SqlVal.null
      = Except.ok (Table.mk ((t.cols ++ ["sync_type"]) ++ ["duration_ms"])
          ((t.rows.map (fun r => r ++ [("sync_type", SqlVal.text "auto")])).map
            (fun r => r ++ [("duration_ms", SqlVal.null)]))) := by
    unfold alterAddColumn
    rw [if_neg hd1]
  unfold migrateAlters
  rw [h1]
  simp only [execIgnore]
  rw [h2]

theorem migrateAlters_sync_mem (t : Table) (hsync : "sync_type" ∉ t.cols) :
    "sync_type" ∈ (migrateAlters t).cols := by
  have h1 : alterAddColumn t "sync_type" (SqlVal.text "auto")
      = Except.ok (Table.mk (t.cols ++ ["sync_type"])
          (t.rows.map (fun r => r ++ [("sync_type", SqlVal.text "auto")]))) := by
    unfold alterAddColumn
    rw [if_neg hsync]
  unfold migrateAlters
  rw [h1]
  simp only [execIgnore]
  by_cases hd : "duration_ms" ∈ t.cols ++ ["sync_type"]
  · have h2 : alterAddColumn (Table.mk (t.cols ++ ["sync_type"])
          (t.rows.map (fun r => r ++ [("sync_type", SqlVal.text "auto")]))) "duration_ms"
          SqlVal.null
        = Except.error "duplicate column name" := by
      unfold alterAddColumn
      rw [if_pos hd]
    rw [h2]
    simp only [execIgnore]
    simp
  · have h2 : alterAddColumn (Table.mk (t.cols ++ ["sync_type"])
          (t.rows.map (fun r => r ++ [("sync_type", SqlVal.text "auto")]))) "duration_ms"
          SqlVal.null
        = Except.ok (Table.mk ((t.cols ++ ["sync_type"]) ++ ["duration_ms"])
            ((t.rows.map (fun r => r ++ [("sync_type", SqlVal.text "auto")])).map
              (fun r => r ++ [("duration_ms", SqlVal.null)]))) := by
      unfold alterAddColumn
      rw [if_neg hd]
    rw [h2]
    simp only [execIgnore]
    simp

theorem migrateRecreate_done (db : Db) (t2 : Table) (he : "error_message" ∈ t2.cols) :
    migrateRecreate db t2 = (none, { db with main := some t2 }) := by
  unfold migrateRecreate
  rw [if_pos he]

theorem migrateRecreate_copy_ok (db : Db) (t2 : Table) (rows : List Row)
    (he : "error_message" ∉ t2.cols) (ha : db.aside = none)
    (hc : copyOldRows t2 = Except.ok rows) :
    migrateRecreate db t2 = (none, Db.mk (some (Table.mk canonicalCols rows)) none) := by
  unfold migrateRecreate
  rw [if_neg he, ha, hc]

theorem migrateRecreate_copy_err (db : Db) (t2 : Table) (e : String)
    (he : "error_message" ∉ t2.cols) (ha : db.aside = none)
    (hc : copyOldRows t2 = Except.error e) :
    migrateRecreate db t2
      = (some e, Db.mk (some (Table.mk canonicalCols [])) (some t2)) := by
  unfold migrateRecreate
  rw [if_neg he, ha, hc]

theorem migrateRecreate_rename_err (db : Db) (t2 : Table) (x : Table)
    (he : "error_message" ∉ t2.cols) (ha : db.aside = some x) :
    migrateRecreate db t2
      = (some "Failed to rename old table", { db with main := some t2 }) := by
  unfold migrateRecreate
  rw [if_neg he, ha]

/-- Running the migration block on a legacy-schema table: the canonical table
replaces it, each row is mapped by `migratedRow`, the aside table is gone,
and no error is surfaced. -/
theorem migrate_old_schema (db : Db) (t : Table)
    (hmain : db.main = some t)
    (hsync : "sync_type" ∉ t.cols)
    (hdur : "duration_ms" ∉ t.cols)
    (herr : "error_message" ∉ t.cols)
    (haside : db.aside = none)
    (hcols : ∀ c ∈ copySelectCols, c ∈ t.cols) :
    migrate_sync_history db
      = (none, Db.mk (some (Table.mk canonicalCols (t.rows.map migratedRow))) none) := by
  rw [migrate_eq_recreate db t hmain hsync, migrateAlters_old t hsync hdur]
  have he2 : "error_message"
      ∉ (Table.mk ((t.cols ++ ["sync_type"]) ++ ["duration_ms"])
          ((t.rows.map (fun r => r ++ [("sync_type", SqlVal.text "auto")])).map
            (fun r => r ++ [("duration_ms", SqlVal.null)]))).cols := by
    intro hmem
    rcases List.mem_append.mp hmem with hmem | hmem
    · rcases List.mem_append.mp hmem with hmem | hmem
      · exact herr hmem
      · simp at hmem
    · simp at hmem
  have hcopy : copyOldRows (Table.mk ((t.cols ++ ["sync_type"]) ++ ["duration_ms"])
        ((t.rows.map (fun r => r ++ [("sync_type", SqlVal.text "auto")])).map
          (fun r => r ++ [("duration_ms", SqlVal.null)])))
      = Except.ok (t.rows.map migratedRow) := by
    unfold copyOldRows
    rw [if_pos]
    · rw [List.map_map, List.map_map]
      have hmrow : (migratedRow ∘ fun r : Row => r ++ [("duration_ms", SqlVal.null)])
            ∘ (fun r : Row => r ++ [("sync_type", SqlVal.text "auto")]) = migratedRow := by
        funext r
        exact migratedRow_alters r
      rw [hmrow]
    · simp only [List.all_eq_true, decide_eq_true_eq]
      intro c hc
      exact List.mem_append.mpr (Or.inl (List.mem_append.mpr (Or.inl (hcols c hc))))
  exact migrateRecreate_copy_ok db _ _ he2 haside hcopy

/-- C3: running the schema migration on a table holding any mix of old-schema
rows produces the canonical table with the same row count, each row mapped by
column renaming (`duration` to `duration_ms`, `error` to `error_message`),
`sync_type` defaulted to the generic `"auto"`, NULL counters coalesced to 0,
and the renamed-aside table dropped; when instead the copy fails, the error
is surfaced and the aside table is left in place (dropped only after a
successful copy). -/
theorem C3_migration_preserves_rows (db : Db) (t : Table)
    (hmain : db.main = some t)
    (hsync : "sync_type" ∉ t.cols)
    (hdur : "duration_ms" ∉ t.cols)
    (herr : "error_message" ∉ t.cols)
    (haside : db.aside = none)
    (hcols : ∀ c ∈ copySelectCols, c ∈ t.cols) :
    migrate_sync_history db
      = (none, Db.mk (some (Table.mk canonicalCols (t.rows.map migratedRow))) none) ∧
    (t.rows.map migratedRow).length = t.rows.length ∧
    (∀ r : Row,
      rowVal (migratedRow r) "duration_ms" = rowVal r "duration" ∧
      rowVal (migratedRow r) "error_message" = rowVal r "error" ∧
      rowVal (migratedRow r) "sync_type" = SqlVal.text "auto" ∧
      rowVal (migratedRow r) "runs_added" = sqlCoalesce (rowVal r "runs_added") (SqlVal.int 0) ∧
      rowVal (migratedRow r) "characters_processed"
        = sqlCoalesce (rowVal r "characters_processed") (SqlVal.int 0) ∧
      rowVal (migratedRow r) "id" = rowVal r "id" ∧
      rowVal (migratedRow r) "timestamp" = rowVal r "timestamp" ∧
      rowVal (migratedRow r) "success" = rowVal r "success") ∧
    (∀ (db2 : Db) (t2 : Table), db2.main = some t2 → "sync_type" ∉ t2.cols →
      "duration_ms" ∉ t2.cols → "error_message" ∉ t2.cols → db2.aside = none →
      "duration" ∉ t2.cols →
      (migrate_sync_history db2).1 ≠ none ∧ (migrate_sync_history db2).2.aside ≠ none) := by
  refine ⟨migrate_old_schema db t hmain hsync hdur herr haside hcols, by simp, ?_, ?_⟩
  · intro r
    exact ⟨rfl, rfl, rfl, rfl, rfl, rfl, rfl, rfl⟩
  · intro db2 t2 hmain2 hsync2 hdur2 herr2 haside2 hnodur
    have he2 : "error_message"
        ∉ (Table.mk ((t2.cols ++ ["sync_type"]) ++ ["duration_ms"])
            ((t2.rows.map (fun r => r ++ [("sync_type", SqlVal.text "auto")])).map
              (fun r => r ++ [("duration_ms", SqlVal.null)]))).cols := by
      intro hmem
      rcases List.mem_append.mp hmem with hmem | hmem
      · rcases List.mem_append.mp hmem with hmem | hmem
        · exact herr2 hmem
        · simp at hmem
      · simp at hmem
    have hcopy : copyOldRows (Table.mk ((t2.cols ++ ["sync_type"]) ++ ["duration_ms"])
          ((t2.rows.map (fun r => r ++ [("sync_type", SqlVal.text "auto")])).map
            (fun r => r ++ [("duration_ms", SqlVal.null)])))
        = Except.error "Failed to migrate data: no such column" := by
      unfold copyOldRows
      rw [if_neg]
      intro hall
      simp only [List.all_eq_true, decide_eq_true_eq] at hall
      have hdm := hall "duration" (by simp [copySelectCols])
      rcases List.mem_append.mp hdm with hmem | hmem
      · rcases List.mem_append.mp hmem with hmem | hmem
        · exact hnodur hmem
        · simp at hmem
      · simp at hmem
    have hrun : migrate_sync_history db2
        = (some "Failed to migrate data: no such column",
           Db.mk (some (Table.mk canonicalCols []))
             (some (Table.mk ((t2.cols ++ ["sync_type"]) ++ ["duration_ms"])
               ((t2.rows.map (fun r => r ++ [("sync_type", SqlVal.text "auto")])).map
                 (fun r => r ++ [("duration_ms", SqlVal.null)]))))) := by
      rw [migrate_eq_recreate db2 t2 hmain2 hsync2, migrateAlters_old t2 hsync2 hdur2]
      exact migrateRecreate_copy_err db2 _ _ he2 haside2 hcopy
    rw [hrun]
    exact ⟨by simp, by simp⟩

/-- Witness for C3 at a one-row legacy table: the migration yields the
canonical table with that row mapped across. -/
theorem C3_migration_witness :
    migrate_sync_history dbOld
      = (none, Db.mk (some (Table.mk canonicalCols [migratedRow oldRow1])) none) :=
  (C3_migration_preserves_rows dbOld (Table.mk oldSchemaCols [oldRow1]) rfl
    (by decide) (by decide) (by decide) rfl (by decide)).1

/-- C6: the migration is idempotent — whenever a run completes without error,
running it again on the resulting database detects completion (the
`sync_type` column probe) and is a no-op: same state, hence no duplicated
rows, and no error. -/
theorem C6_migration_idempotent (db db2 : Db)
    (h : migrate_sync_history db = (none, db2)) :
    migrate_sync_history db2 = (none, db2) := by
  cases hm : db.main with
  | none =>
      rw [migrate_none db hm] at h
      injection h with h1 h2
      subst h2
      exact migrate_none db hm
  | some t =>
      by_cases hs : "sync_type" ∈ t.cols
      · rw [migrate_done db t hm hs] at h
        injection h with h1 h2
        subst h2
        exact migrate_done db t hm hs
      · rw [migrate_eq_recreate db t hm hs] at h
        have hmem : "sync_type" ∈ (migrateAlters t).cols := migrateAlters_sync_mem t hs
        by_cases he : "error_message" ∈ (migrateAlters t).cols
        · rw [migrateRecreate_done db _ he] at h
          injection h with h1 h2
          subst h2
          exact migrate_done _ (migrateAlters t) rfl hmem
        · cases ha : db.aside with
          | some x =>
              rw [migrateRecreate_rename_err db _ x he ha] at h
              injection h with h1 h2
              exact absurd h1 (by simp)
          | none =>
              cases hc : copyOldRows (migrateAlters t) with
              | error e =>
                  rw [migrateRecreate_copy_err db _ e he ha hc] at h
                  injection h with h1 h2
                  exact absurd h1 (by simp)
              | ok rows =>
                  rw [migrateRecreate_copy_ok db _ rows he ha hc] at h
                  injection h with h1 h2
                  subst h2
                  have hcan : "sync_type" ∈ canonicalCols := by decide
                  exact migrate_done (Db.mk (some (Table.mk canonicalCols rows)) none)
                    (Table.mk canonicalCols rows) rfl hcan

/-- Witness for C6: a successful migration of the one-row legacy database is
detected as complete on a second run, which changes nothing. -/
theorem C6_migration_witness :
    migrate_sync_history
        (Db.mk (some (Table.mk canonicalCols [migratedRow oldRow1])) none)
      = (none, Db.mk (some (Table.mk canonicalCols [migratedRow oldRow1])) none) :=
  C6_migration_idempotent dbOld
    (Db.mk (some (Table.mk canonicalCols [migratedRow oldRow1])) none)
    (migrate_old_schema dbOld (Table.mk oldSchemaCols [oldRow1]) rfl
      (by decide) (by decide) (by decide) rfl (by decide))

theorem isOk_exists {α : Type} (x : Except String α) (h : x.isOk = true) :
    ∃ a, x = Except.ok a := by
  cases x with
  | error e => simp [Except.isOk, Except.toBool] at h
  | ok a => exact ⟨a, rfl⟩

theorem exc_bind_ok {α β : Type} (a : α) (f : α → Except String β) :
    (Except.ok a >>= f) = f a := rfl

theorem insertDesc_mem (r x : Row) (l : List Row) (h : x ∈ insertDesc r l) :
    x = r ∨ x ∈ l := by
  induction l with
  | nil =>
      simp [insertDesc] at h
      exact Or.inl h
  | cons y ys ih =>
      unfold insertDesc at h
      by_cases hlt : tsOf y < tsOf r
      · rw [if_pos hlt] at h
        rcases List.mem_cons.mp h with h | h
        · exact Or.inl h
        · exact Or.inr h
      · rw [if_neg hlt] at h
        rcases List.mem_cons.mp h with h | h
        · exact Or.inr (by simp [h])
        · rcases ih h with h | h
          · exact Or.inl h
          · exact Or.inr (List.mem_cons_of_mem y h)

theorem sortDesc_mem (x : Row) (l : List Row) (h : x ∈ sortDesc l) : x ∈ l := by
  induction l with
  | nil => simp [sortDesc] at h
  | cons y ys ih =>
      unfold sortDesc at h
      rcases insertDesc_mem y x (sortDesc ys) h with h | h
      · simp [h]
      · exact List.mem_cons_of_mem y (ih h)

theorem rowToEntry_isOk (fmt : Int → String) (r : Row) (h : wellTypedRow r = true) :
    (rowToEntry fmt r).isOk = true := by
  unfold wellTypedRow at h
  simp only [Bool.and_eq_true] at h
  obtain ⟨⟨⟨⟨⟨⟨h1, h2⟩, h3⟩, h4⟩, h5⟩, h6⟩, h7⟩ := h
  obtain ⟨a1, e1⟩ := isOk_exists _ h1
  obtain ⟨a2, e2⟩ := isOk_exists _ h2
  obtain ⟨a3, e3⟩ := isOk_exists _ h3
  obtain ⟨a4, e4⟩ := isOk_exists _ h4
  obtain ⟨a5, e5⟩ := isOk_exists _ h5
  obtain ⟨a6, e6⟩ := isOk_exists _ h6
  obtain ⟨a7, e7⟩ := isOk_exists _ h7
  unfold rowToEntry
  simp only [e1, e2, e3, e4, e5, e6, e7, exc_bind_ok]
  rfl

theorem collectEntries_isOk (fmt : Int → String) (l : List Row)
    (h : ∀ r ∈ l, wellTypedRow r = true) :
    (collectEntries fmt l).isOk = true := by
  induction l with
  | nil => rfl
  | cons r rs ih =>
      obtain ⟨en, he⟩ := isOk_exists _ (rowToEntry_isOk fmt r (h r (List.mem_cons_self r rs)))
      obtain ⟨ens, hes⟩ := isOk_exists _ (ih (fun x hx => h x (List.mem_cons_of_mem r hx)))
      unfold collectEntries
      rw [he, hes]
      rfl

theorem getIntOpt_coalesce_isOk (v : SqlVal) (h : (getIntOpt v).isOk = true) :
    (getIntOpt (sqlCoalesce v (SqlVal.int 0))).isOk = true := by
  cases v <;> simp [getIntOpt, sqlCoalesce, Except.isOk, Except.toBool] at h ⊢

theorem wellTyped_migrated (r : Row) (h : oldRowWellTyped r = true) :
    wellTypedRow (migratedRow r) = true := by
  unfold oldRowWellTyped at h
  simp only [Bool.and_eq_true] at h
  obtain ⟨⟨⟨⟨⟨h1, h2⟩, h3⟩, h4⟩, h5⟩, h6⟩ := h
  unfold wellTypedRow
  simp only [Bool.and_eq_true]
  exact ⟨⟨⟨⟨⟨⟨h1, h2⟩, rfl⟩, getIntOpt_coalesce_isOk _ h3⟩, getIntOpt_coalesce_isOk _ h4⟩,
    h5⟩, h6⟩

theorem openMainTable_some (db : Db) (t : Table) (hm : db.main = some t) :
    openMainTable db = t := by
  unfold openMainTable
  rw [hm]

theorem get_sync_history_ok (fmt : Int → String) (db : Db) (t : Table) (limit : Nat)
    (hm : db.main = some t) (hcols : t.cols = canonicalCols)
    (hrows : ∀ r ∈ t.rows, wellTypedRow r = true) :
    (get_sync_history_q fmt db limit).isOk = true := by
  simp only [get_sync_history_q]
  rw [openMainTable_some db t hm, hcols]
  rw [if_pos (by decide)]
  exact collectEntries_isOk fmt _
    (fun r hr => hrows r (sortDesc_mem r t.rows (List.take_subset _ _ hr)))

theorem add_sync_history_ok (parseTs : String → Option Int) (now : Int) (db : Db)
    (t : Table) (e : SyncHistoryEntry)
    (hm : db.main = some t) (hcols : t.cols = canonicalCols) :
    (add_sync_history_q parseTs now db e).isOk = true := by
  simp only [add_sync_history_q]
  rw [openMainTable_some db t hm, hcols]
  rw [if_pos (by decide)]
  rfl

/-- C2: the claim says every append and query against the sync-history table
observes the canonical schema and does not fail because of the historical
schema.  In the code only `get_last_sync_time` migrates; `get_sync_history`
and `add_sync_history` merely run `CREATE TABLE IF NOT EXISTS`, which is a
no-op on an old-schema table, and their statements then fail with "no such
column" (see the counterexample).  Amended claim, proved here: once the
reconciler in `get_last_sync_time` has run on a legacy-schema file (or the
table did not exist), every append and query observes the canonical schema
and succeeds. -/
theorem C2_schema_after_migration (fmt : Int → String) (parseTs : String → Option Int)
    (now : Int) (limit : Nat) (e : SyncHistoryEntry) (db : Db) (t : Table)
    (hmain : db.main = some t) (hcols : t.cols = oldSchemaCols)
    (hrows : ∀ r ∈ t.rows, oldRowWellTyped r = true) (haside : db.aside = none) :
    (migrate_sync_history db).1 = none ∧
    ((migrate_sync_history db).2.main.map Table.cols) = some canonicalCols ∧
    (get_sync_history_q fmt (migrate_sync_history db).2 limit).isOk = true ∧
    (add_sync_history_q parseTs now (migrate_sync_history db).2 e).isOk = true := by
  have hmig := migrate_old_schema db t hmain (by rw [hcols]; decide) (by rw [hcols]; decide)
    (by rw [hcols]; decide) haside (by rw [hcols]; decide)
  rw [hmig]
  refine ⟨rfl, rfl, ?_, ?_⟩
  · refine get_sync_history_ok fmt _ (Table.mk canonicalCols (t.rows.map migratedRow))
      limit rfl rfl ?_
    intro r hr
    rcases List.mem_map.mp hr with ⟨r0, hr0, hr0eq⟩
    rw [← hr0eq]
    exact wellTyped_migrated r0 (hrows r0 hr0)
  · exact add_sync_history_ok parseTs now _ (Table.mk canonicalCols (t.rows.map migratedRow))
      e rfl rfl

/-- Witness for C2 (amended): on the one-row legacy file, the reconciler
succeeds and the subsequent query and append both succeed against the
canonical schema. -/
theorem C2_schema_witness :
    (migrate_sync_history dbOld).1 = none ∧
    ((migrate_sync_history dbOld).2.main.map Table.cols) = some canonicalCols ∧
    (get_sync_history_q fmt0 (migrate_sync_history dbOld).2 4).isOk = true ∧
    (add_sync_history_q parseTs0 77 (migrate_sync_history dbOld).2 entryScenario).isOk = true :=
  C2_schema_after_migration fmt0 parseTs0 77 4 entryScenario dbOld
    (Table.mk oldSchemaCols [oldRow1]) rfl rfl (by decide) rfl

/-- Counterexample for C2 as stated: on a history file created under the old
schema, a query and an append issued without the reconciler having run both
fail because of the historical schema. -/
theorem C2_counterexample_unmigrated_fails :
    get_sync_history_q fmt0 dbOld 4
      = Except.error "Failed to query sync history: no such column" ∧
    add_sync_history_q parseTs0 0 dbOld entryScenario
      = Except.error "Failed to insert sync history: no such column" :=
  ⟨rfl, rfl⟩

theorem rowToEntry_entryRow (parseTs : String → Option Int) (fmt : Int → String)
    (now ms : Int) (e : SyncHistoryEntry) (hts : parseTs e.timestamp = some ms) :
    rowToEntry fmt (entryRow parseTs now e)
      = Except.ok { timestamp := fmt ms, success := e.success, sync_type := e.sync_type,
                    runs_added := some (e.runs_added.getD 0),
                    characters_processed := some (e.characters_processed.getD 0),
                    duration := e.duration, error := e.error } := by
  have h1 : rowVal (entryRow parseTs now e) "timestamp"
      = SqlVal.int ((parseTs e.timestamp).getD now) := rfl
  have h2 : rowVal (entryRow parseTs now e) "success"
      = SqlVal.int (if e.success then 1 else 0) := rfl
  have h3 : rowVal (entryRow parseTs now e) "sync_type" = SqlVal.text e.sync_type := rfl
  have h4 : rowVal (entryRow parseTs now e) "runs_added"
      = SqlVal.int (e.runs_added.getD 0) := rfl
  have h5 : rowVal (entryRow parseTs now e) "characters_processed"
      = SqlVal.int (e.characters_processed.getD 0) := rfl
  have h6 : rowVal (entryRow parseTs now e) "duration_ms" = optInt e.duration := rfl
  have h7 : rowVal (entryRow parseTs now e) "error_message" = optText e.error := rfl
  unfold rowToEntry
  rw [h1, h2, h3, h4, h5, h6, h7, hts]
  cases e.success <;> cases e.duration <;> cases e.error <;> rfl

/-- C5: the claim says append-then-query (limit 1) returns exactly the
appended entry with the timestamp round-tripped.  The append substitutes 0
for absent `runs_added`/`characters_processed` (`unwrap_or(0)`), so those
come back as `Some 0` rather than absent (see the counterexample).  Amended
claim, proved here: on a fresh store, appending an entry whose timestamp
parses as RFC 3339 to `ms` and querying with limit 1 returns exactly that
entry with the timestamp replaced by the formatted `ms` (an equivalent
instant at millisecond precision, by `chrono`'s round-trip law) and with
absent counters returned as 0. -/
theorem C5_append_query_roundtrip (parseTs : String → Option Int) (fmt : Int → String)
    (now ms : Int) (e : SyncHistoryEntry) (hts : parseTs e.timestamp = some ms) :
    appendThenQuery parseTs fmt now e
      = Except.ok [{ timestamp := fmt ms, success := e.success, sync_type := e.sync_type,
                     runs_added := some (e.runs_added.getD 0),
                     characters_processed := some (e.characters_processed.getD 0),
                     duration := e.duration, error := e.error }] ∧
    (parseTs (fmt ms) = some ms → parseTs (fmt ms) = parseTs e.timestamp) := by
  constructor
  · have hred : appendThenQuery parseTs fmt now e
        = collectEntries fmt [entryRow parseTs now e] := rfl
    rw [hred]
    unfold collectEntries
    rw [rowToEntry_entryRow parseTs fmt now ms e hts]
    rfl
  · intro h
    rw [h, hts]

/-- Witness for C5 (amended): the spec scenario entry appended to a fresh
store and queried back, with its timestamp round-tripped through epoch
milliseconds and the absent counters returned as 0. -/
theorem C5_roundtrip_witness :
    appendThenQuery parseTs0 fmt0 77 entryScenario
      = Except.ok [{ timestamp := "2024-01-01T00:00:00+00:00", success := true,
                     sync_type := "manual", runs_added := some 0,
                     characters_processed := some 0, duration := none, error := none }] ∧
    (parseTs0 (fmt0 1704067200000) = some 1704067200000 →
      parseTs0 (fmt0 1704067200000) = parseTs0 entryScenario.timestamp) :=
  C5_append_query_roundtrip parseTs0 fmt0 77 1704067200000 entryScenario rfl

/-- Counterexample for C5 as stated: the spec scenario entry has
`runs_added` absent, but the entry returned by append-then-query carries
`runs_added = 0` (and likewise `characters_processed`), so the result is not
exactly the appended entry even after the timestamp conversion. -/
theorem C5_counterexample_absent_counters :
    appendThenQuery parseTs0 fmt0 77 entryScenario
      = Except.ok [{ timestamp := "2024-01-01T00:00:00+00:00", success := true,
                     sync_type := "manual", runs_added := some 0,
                     characters_processed := some 0, duration := none, error := none }] ∧
    entryScenario.runs_added = none ∧ entryScenario.characters_processed = none :=
  ⟨rfl, rfl, rfl⟩

/-- C10: appending an entry whose timestamp string is not parseable RFC 3339
does not fail because of the timestamp: the insert succeeds and the current
time (epoch milliseconds at the call) is silently substituted. -/
theorem C10_bad_timestamp_uses_now (parseTs : String → Option Int) (now : Int)
    (db : Db) (e : SyncHistoryEntry)
    (hbad : parseTs e.timestamp = none)
    (hcols : insertCols.all (fun c => c ∈ (openMainTable db).cols) = true) :
    add_sync_history_q parseTs now db e
      = Except.ok { db with main := some (Table.mk (openMainTable db).cols
          ((openMainTable db).rows ++ [entryRow parseTs now e])) } ∧
    rowVal (entryRow parseTs now e) "timestamp" = SqlVal.int now := by
  constructor
  · simp only [add_sync_history_q]
    rw [if_pos hcols]
  · show SqlVal.int ((parseTs e.timestamp).getD now) = SqlVal.int now
    rw [hbad]
    rfl

/-- Witness for C10: an entry with timestamp `"not-a-timestamp"` is inserted
into a fresh store without error, with the ambient current time 42 stored. -/
theorem C10_bad_timestamp_witness :
    add_sync_history_q parseTs0 42 dbEmpty entryBadTs
      = Except.ok (Db.mk (some (Table.mk canonicalCols [entryRow parseTs0 42 entryBadTs])) none) ∧
    rowVal (entryRow parseTs0 42 entryBadTs) "timestamp" = SqlVal.int 42 :=
  C10_bad_timestamp_uses_now parseTs0 42 dbEmpty entryBadTs rfl (by decide)

/-! ### Tail reader lemmas -/

theorem splitNl_nil : splitNl [] = [[]] := rfl

theorem splitNl_cons_nl (rest : List Char) : splitNl ('\n' :: rest) = [] :: splitNl rest := rfl

theorem splitNl_cons (c : Char) (rest : List Char) (hc : c ≠ '\n') :
    splitNl (c :: rest) = (c :: (splitNl rest).headI) :: (splitNl rest).tail := by
  show (if c = '\n' then [] :: splitNl rest
        else (c :: (splitNl rest).headI) :: (splitNl rest).tail)
      = (c :: (splitNl rest).headI) :: (splitNl rest).tail
  rw [if_neg hc]

theorem splitNl_ne_nil (cs : List Char) : splitNl cs ≠ [] := by
  cases cs with
  | nil => simp [splitNl_nil]
  | cons c rest =>
      by_cases hc : c = '\n'
      · subst hc
        rw [splitNl_cons_nl]
        simp
      · rw [splitNl_cons c rest hc]
        simp

theorem splitNl_no_newline (cs : List Char) (h : '\n' ∉ cs) : splitNl cs = [cs] := by
  induction cs with
  | nil => rfl
  | cons c rest ih =>
      have hc : ¬(c = '\n') := fun hceq => h (by simp [hceq])
      have hrest : '\n' ∉ rest := fun hm => h (List.mem_cons_of_mem c hm)
      rw [splitNl_cons c rest hc, ih hrest]
      rfl

theorem splitNl_append_newline (a b : List Char) :
    splitNl (a ++ '\n' :: b) = splitNl a ++ splitNl b := by
  induction a with
  | nil =>
      rw [List.nil_append, splitNl_cons_nl, splitNl_nil]
      rfl
  | cons c a' ih =>
      by_cases hc : c = '\n'
      · subst hc
        rw [List.cons_append, splitNl_cons_nl, splitNl_cons_nl, ih]
        rfl
      · rw [List.cons_append, splitNl_cons c _ hc, splitNl_cons c a' hc, ih]
        obtain ⟨h0, t0, he⟩ := List.exists_cons_of_ne_nil (splitNl_ne_nil a')
        rw [he]
        simp

theorem getLastD_append (A S : List (List Char)) (h : S ≠ []) (d : List Char) :
    (A ++ S).getLastD d = S.getLastD d := by
  induction A generalizing d with
  | nil => rfl
  | cons x A ih =>
      rw [List.cons_append, List.getLastD_cons d x (A ++ S), ih x]
      obtain ⟨s0, S0, hs⟩ := List.exists_cons_of_ne_nil h
      rw [hs, List.getLastD_cons x s0 S0, List.getLastD_cons d s0 S0]

theorem rustLines_split (a b : List Char) :
    rustLines (a ++ '\n' :: b) = (splitNl a).map stripCr ++ rustLines b := by
  have hb := splitNl_ne_nil b
  simp only [rustLines]
  rw [splitNl_append_newline, List.dropLast_append_of_ne_nil _ hb, List.map_append,
    getLastD_append _ _ hb, List.append_assoc]

theorem rustLines_frag (frag rest : List Char) (hnl : '\n' ∉ frag) :
    rustLines (frag ++ '\n' :: rest) = stripCr frag :: rustLines rest := by
  rw [rustLines_split frag rest, splitNl_no_newline frag hnl]
  rfl

theorem rustLines_no_newline (cs : List Char) (h : '\n' ∉ cs) (hne : cs ≠ []) :
    rustLines cs = [cs] := by
  simp only [rustLines]
  rw [splitNl_no_newline cs h]
  show (if cs = [] then [] else [cs]) = [cs]
  rw [if_neg hne]

theorem rustLines_replicate (n : Nat) (c : Char) (hc : c ≠ '\n') (hn : n ≠ 0) :
    rustLines (List.replicate n c) = [List.replicate n c] := by
  apply rustLines_no_newline
  · intro hmem
    rcases List.mem_replicate.mp hmem with ⟨-, hceq⟩
    exact hc hceq.symm
  · intro hh
    have := congrArg List.length hh
    simp at this
    exact hn this

theorem linesParse_append (parse : List Char → Option Json) (l₁ l₂ : List (List Char)) :
    linesParse parse (l₁ ++ l₂) = linesParse parse l₁ ++ linesParse parse l₂ := by
  simp [linesParse]

theorem linesParse_cons_none (parse : List Char → Option Json) (l : List Char)
    (ls : List (List Char)) (h : parse l = none) :
    linesParse parse (l :: ls) = linesParse parse ls := by
  simp [linesParse, List.filterMap_cons, h]

theorem linesParse_cons_some (parse : List Char → Option Json) (l : List Char)
    (ls : List (List Char)) (j : Json) (h : parse l = some j) :
    linesParse parse (l :: ls) = parse_log_entry j :: linesParse parse ls := by
  simp [linesParse, List.filterMap_cons, h]

theorem lastN_eq_drop (limit : Nat) (l : List α) :
    lastN limit l = l.drop (l.length - limit) := by
  unfold lastN
  by_cases h : l.length > limit
  · rw [if_pos h]
  · rw [if_neg h]
    have h0 : l.length - limit = 0 := Nat.sub_eq_zero_of_le (Nat.le_of_not_lt h)
    rw [h0]

theorem lastN_append_of_le (limit : Nat) (xs ys : List α) (h : limit ≤ ys.length) :
    lastN limit (xs ++ ys) = lastN limit ys := by
  rw [lastN_eq_drop, lastN_eq_drop, List.length_append]
  have h1 : xs.length + ys.length - limit = xs.length + (ys.length - limit) := by omega
  rw [h1, List.drop_append_eq_append_drop, List.drop_eq_nil_of_le (by omega)]
  have h2 : xs.length + (ys.length - limit) - xs.length = ys.length - limit := by omega
  rw [h2]
  rfl

theorem lastN_of_le (limit : Nat) (l : List α) (h : l.length ≤ limit) :
    lastN limit l = l := by
  rw [lastN_eq_drop]
  have h0 : l.length - limit = 0 := by omega
  rw [h0]
  exact List.drop_zero l

theorem lastN_suffix (limit : Nat) (l : List α) : lastN limit l <:+ l := by
  rw [lastN_eq_drop]
  exact List.drop_suffix _ _

theorem lastN_length (limit : Nat) (l : List α) :
    (lastN limit l).length = min limit l.length := by
  rw [lastN_eq_drop, List.length_drop]
  omega

theorem serdeOracle_ne (l : List Char) (ha : l ≠ lineA) (hb : l ≠ lineB) :
    serdeOracle l = none := by
  unfold serdeOracle
  rw [if_neg ha, if_neg hb]

theorem serdeOracle_replicate (n : Nat) (c : Char) (hn : 5 < n) :
    serdeOracle (List.replicate n c) = none := by
  apply serdeOracle_ne
  · intro h
    have := congrArg List.length h
    simp [lineA] at this
    omega
  · intro h
    have := congrArg List.length h
    simp [lineB] at this
    omega

theorem parseBuffer_replicate (n : Nat) (c : Char) (hc : c ≠ '\n') (hn : 5 < n) :
    parseBuffer serdeOracle (List.replicate n c) = [] := by
  unfold parseBuffer
  rw [rustLines_replicate n c hc (by omega),
    linesParse_cons_none serdeOracle _ _ (serdeOracle_replicate n c hn)]
  rfl


/-- C7: the claim says the reader returns the last N successfully parsed
records of the file, truncating from the front, and returns exactly the
file's record count when that is below N.  For files at or above 1 MB the
reader parses only the trailing 500KB window, so records before the window
are invisible to it (see the counterexample).  Amended claim, proved here:
the reader returns the last N records successfully parsed from the portion
it reads (the whole file below 1 MB, the trailing window otherwise), oldest
first (a contiguous suffix in file order), with length `min N parsed`, and
returns all of them, with no padding and no error, when fewer than N were
parsed from that portion. -/
theorem C7_last_n_of_parsed (parse : List Char → Option Json) (content : List Char)
    (limit : Nat) :
    get_logs_from_content parse content limit <:+ parseBuffer parse (readWindow content) ∧
    (get_logs_from_content parse content limit).length
      = min limit (parseBuffer parse (readWindow content)).length ∧
    ((parseBuffer parse (readWindow content)).length ≤ limit →
      get_logs_from_content parse content limit = parseBuffer parse (readWindow content)) :=
  ⟨lastN_suffix limit _, lastN_length limit _, fun h => lastN_of_le limit _ h⟩

/-- Witness for C7 (amended) on a one-line log file with one valid record and
limit 10: the result is that single record, as a suffix of the parsed list,
with no padding and no error. -/
theorem C7_last_n_witness :
    get_logs_from_content serdeOracle lineA 10 <:+ parseBuffer serdeOracle (readWindow lineA) ∧
    (get_logs_from_content serdeOracle lineA 10).length
      = min 10 (parseBuffer serdeOracle (readWindow lineA)).length ∧
    get_logs_from_content serdeOracle lineA 10 = parseBuffer serdeOracle (readWindow lineA) :=
  ⟨(C7_last_n_of_parsed serdeOracle lineA 10).1,
   (C7_last_n_of_parsed serdeOracle lineA 10).2.1,
   (C7_last_n_of_parsed serdeOracle lineA 10).2.2 (by decide)⟩

/-- Counterexample for C7 as stated: a 1000001-byte log file containing
exactly one valid record, placed before the trailing window, makes the
reader return zero records for N = 10 instead of exactly one. -/
theorem C7_counterexample_record_outside_window :
    (parseBuffer serdeOracle contentOneRecord).length = 1 ∧
    (1 : Nat) < 10 ∧
    get_logs_from_content serdeOracle contentOneRecord 10 = [] := by
  have hform : contentOneRecord = (lineA ++ ['\n']) ++ List.replicate 999995 'x' := rfl
  have hlen : contentOneRecord.length = 1000001 := by
    rw [show contentOneRecord = lineA ++ '\n' :: List.replicate 999995 'x' from rfl,
      List.length_append, List.length_cons, List.length_replicate]
    decide
  refine ⟨?_, by norm_num, ?_⟩
  · rw [show contentOneRecord = lineA ++ '\n' :: List.replicate 999995 'x' from rfl]
    unfold parseBuffer
    rw [rustLines_frag lineA _ (by decide),
      rustLines_replicate 999995 'x' (by decide) (by norm_num),
      show stripCr lineA = lineA from rfl,
      linesParse_cons_some serdeOracle lineA _ jsonA rfl,
      linesParse_cons_none serdeOracle _ _ (serdeOracle_replicate 999995 'x' (by norm_num))]
    rfl
  · unfold get_logs_from_content
    have h6 : (lineA ++ ['\n']).length ≤ 500001 := by decide
    have hwin : readWindow contentOneRecord = List.replicate 500000 'x' := by
      unfold readWindow
      rw [hlen, if_neg (by norm_num)]
      have hmin : (1000001 : Nat) - min 500000 1000001 = 500001 := by norm_num
      rw [hmin, hform, List.drop_append_eq_append_drop, List.drop_eq_nil_of_le h6,
        List.nil_append, List.drop_replicate]
      congr 1
    rw [hwin, parseBuffer_replicate 500000 'x' (by decide) (by norm_num)]
    rfl

/-- C4: the claim says that for every file past the 1 MB threshold, the
windowed large-file path returns the same last-10 result as parsing the
whole file, up to one discarded leading partial line.  That fails when the
trailing 500KB window does not contain enough valid records — records before
the window are lost wholesale (see the counterexample).  Amended claim,
proved here: whenever the window decomposes as an unparsable leading
fragment followed by complete lines carrying at least `limit` parsed
records, the large-file path agrees exactly with parsing the whole file. -/
theorem C4_window_refinement (parse : List Char → Option Json) (content : List Char)
    (limit : Nat) (frag rest : List Char)
    (hbig : ¬ content.length < 1000000)
    (hsplit : content.drop (content.length - min 500000 content.length)
      = frag ++ '\n' :: rest)
    (hnl : '\n' ∉ frag)
    (hdrop : parse (stripCr frag) = none)
    (henough : limit ≤ (linesParse parse (rustLines rest)).length) :
    get_logs_from_content parse content limit = get_logs_whole parse content limit := by
  have hcontent : content = (content.take (content.length - min 500000 content.length) ++ frag)
      ++ '\n' :: rest := by
    conv_lhs => rw [← List.take_append_drop (content.length - min 500000 content.length) content]
    rw [hsplit, List.append_assoc]
  unfold get_logs_from_content get_logs_whole parseBuffer readWindow
  rw [if_neg hbig, hsplit, rustLines_frag frag rest hnl,
    linesParse_cons_none parse _ _ hdrop]
  conv_rhs => rw [hcontent]
  rw [rustLines_split, linesParse_append, lastN_append_of_le limit _ _ henough]

/-- Witness for C4 (amended): a 1000000-byte file whose window starts one
byte into a malformed line; the windowed read and the whole-file read agree. -/
theorem C4_window_refinement_witness :
    get_logs_from_content serdeOracle contentWindowed 0
      = get_logs_whole serdeOracle contentWindowed 0 := by
  have hlenW : contentWindowed.length = 1000000 := by
    rw [show contentWindowed
        = List.replicate 500001 'x' ++ '\n' :: List.replicate 499998 'y' from rfl,
      List.length_append, List.length_cons, List.length_replicate, List.length_replicate]
  refine C4_window_refinement serdeOracle contentWindowed 0 ['x']
    (List.replicate 499998 'y') ?_ ?_ ?_ ?_ ?_
  · rw [hlenW]
    norm_num
  · rw [hlenW]
    have hmin : (1000000 : Nat) - min 500000 1000000 = 500000 := by norm_num
    rw [hmin, show contentWindowed
        = List.replicate 500001 'x' ++ '\n' :: List.replicate 499998 'y' from rfl,
      List.drop_append_eq_append_drop, List.drop_replicate, List.length_replicate,
      show (500001 - 500000 : Nat) = 1 from by norm_num,
      show (500000 - 500001 : Nat) = 0 from by norm_num, List.drop_zero]
    rfl
  · decide
  · rfl
  · exact Nat.zero_le _

/-- Counterexample for C4 as stated: a 1000001-byte file with two valid
records followed by one huge malformed line.  The whole window lies inside
the malformed line, so the large-file path returns no records while parsing
the whole file returns both — a difference two records wide, not one
discarded partial line. -/
theorem C4_counterexample_window_misses_records :
    get_logs_from_content serdeOracle contentRecordsThenFiller 10 = [] ∧
    get_logs_whole serdeOracle contentRecordsThenFiller 10
      = [parse_log_entry jsonA, parse_log_entry jsonB] ∧
    get_logs_from_content serdeOracle contentRecordsThenFiller 10
      ≠ get_logs_whole serdeOracle contentRecordsThenFiller 10 := by
  have hform : contentRecordsThenFiller
      = ((lineA ++ ['\n']) ++ (lineB ++ ['\n'])) ++ List.replicate 999989 'x' := rfl
  have hlen : contentRecordsThenFiller.length = 1000001 := by
    rw [hform, List.length_append, List.length_append, List.length_append,
      List.length_append, List.length_replicate]
    decide
  have hwhole : parseBuffer serdeOracle contentRecordsThenFiller
      = [parse_log_entry jsonA, parse_log_entry jsonB] := by
    rw [show contentRecordsThenFiller
        = lineA ++ '\n' :: (lineB ++ '\n' :: List.replicate 999989 'x') from rfl]
    unfold parseBuffer
    rw [rustLines_frag lineA _ (by decide), rustLines_frag lineB _ (by decide),
      rustLines_replicate 999989 'x' (by decide) (by norm_num),
      show stripCr lineA = lineA from rfl, show stripCr lineB = lineB from rfl,
      linesParse_cons_some serdeOracle lineA _ jsonA rfl,
      linesParse_cons_some serdeOracle lineB _ jsonB rfl,
      linesParse_cons_none serdeOracle _ _ (serdeOracle_replicate 999989 'x' (by norm_num))]
    rfl
  have h12 : ((lineA ++ ['\n']) ++ (lineB ++ ['\n'])).length ≤ 500001 := by decide
  have hwin : readWindow contentRecordsThenFiller = List.replicate 500000 'x' := by
    unfold readWindow
    rw [hlen, if_neg (by norm_num)]
    have hmin : (1000001 : Nat) - min 500000 1000001 = 500001 := by norm_num
    rw [hmin, hform, List.drop_append_eq_append_drop, List.drop_eq_nil_of_le h12,
      List.nil_append, List.drop_replicate]
    congr 1
  refine ⟨?_, ?_, ?_⟩
  · unfold get_logs_from_content
    rw [hwin, parseBuffer_replicate 500000 'x' (by decide) (by norm_num)]
    rfl
  · unfold get_logs_whole
    rw [hwhole]
    rfl
  · unfold get_logs_from_content get_logs_whole
    rw [hwin, parseBuffer_replicate 500000 'x' (by decide) (by norm_num), hwhole]
    simp [lastN]

/-- C9: the claim says every line failing to parse as the expected structured
record (timestamp, level, message) is dropped.  The code drops exactly the
lines `serde_json` rejects; a line that is valid JSON but lacks those fields
is kept, with defaults substituted (see the counterexample).  Amended claim,
proved here: a line that fails JSON parsing contributes nothing to the result
and causes no error for the read; a line parsing to JSON `j` contributes
exactly the record `parse_log_entry j`, whose fields fall back to
`""`/`"INFO"`/`""` when absent. -/
theorem C9_malformed_lines_dropped (parse : List Char → Option Json)
    (pre post : List (List Char)) (line : List Char) :
    (parse line = none →
      linesParse parse (pre ++ line :: post) = linesParse parse (pre ++ post)) ∧
    (∀ j, parse line = some j →
      linesParse parse (pre ++ line :: post)
        = linesParse parse pre ++ parse_log_entry j :: linesParse parse post) ∧
    (∀ j, parse line = some j →
      (((j.index "timestamp").as_str = none → (parse_log_entry j).timestamp = "") ∧
       ((j.index "level").as_str = none → (parse_log_entry j).level = "INFO") ∧
       ((j.index "message").as_str = none → (parse_log_entry j).message = ""))) := by
  refine ⟨?_, ?_, ?_⟩
  · intro h
    rw [linesParse_append, linesParse_append, linesParse_cons_none parse line post h]
  · intro j hj
    rw [linesParse_append, linesParse_cons_some parse line post j hj]
  · intro j hj
    refine ⟨?_, ?_, ?_⟩ <;> intro h <;> simp [parse_log_entry, h]

/-- Witness for C9 (amended): a malformed line `xx` between two records is
dropped without error, a JSON line contributes its record, and a JSON value
without the structured fields gets the default timestamp. -/
theorem C9_malformed_lines_witness :
    linesParse serdeOracle ([lineB] ++ ['x', 'x'] :: [lineA])
      = linesParse serdeOracle ([lineB] ++ [lineA]) ∧
    linesParse serdeOracle ([] ++ lineA :: [])
      = linesParse serdeOracle [] ++ parse_log_entry jsonA :: linesParse serdeOracle [] ∧
    ((jsonA.index "timestamp").as_str = none → (parse_log_entry jsonA).timestamp = "") :=
  ⟨(C9_malformed_lines_dropped serdeOracle [lineB] [lineA] ['x', 'x']).1 rfl,
   (C9_malformed_lines_dropped serdeOracle [] [] lineA).2.1 jsonA rfl,
   ((C9_malformed_lines_dropped serdeOracle [] [] lineA).2.2 jsonA rfl).1⟩

/-- Counterexample for C9 as stated: the log line `["a"]` is valid JSON but
is not a structured record — it has no timestamp, level or message — yet
`get_logs` keeps it as a defaulted record instead of dropping it. -/
theorem C9_counterexample_unstructured_line_kept :
    get_logs_from_content serdeOracle lineA 10
      = [{ timestamp := "", level := "INFO", message := "", metadata := none }] ∧
    (jsonA.index "timestamp").as_str = none ∧
    (jsonA.index "level").as_str = none ∧
    (jsonA.index "message").as_str = none :=
  ⟨rfl, rfl, rfl, rfl⟩

end DaeBot
